import Mathlib

/-!
Shallow embedding of the resilience core of the api-gateway-resilience
repository: the sliding-window rate limiter (slidingRateLimiter.ts), the
fixed-window rate limiter (rateLimiter.ts), the retry caller and the
circuit-breaker guarded /call-slow handler of the gateway entry point, and
the /health route behind the globally installed limiter middleware.
-/

namespace ApiGatewayResilience

/-! Sliding-window limiter, from slidingRateLimiter.ts.
The Redis sorted set for one key is modelled as a Finset Nat: the member
stored by zadd is the string interpolation of now alone, with score now,
so a member is determined by its timestamp and the per-key state is a set
of timestamps. -/
namespace Sliding

def WINDOW_MS : Nat := 60000

def MAX_REQUESTS : Nat := 5

/-- Outcome of a limiter middleware invocation: proceed models next(),
reject models the 429 response. -/
inductive LimiterOutcome where
  | proceed
  | reject
deriving DecidableEq, Repr

/-- Result of the Redis pipeline in slidingRateLimiter.ts: the zcard value
read back as requestCount, and the sorted-set contents afterwards. -/
structure StepResult where
  requestCount : Nat
  entries : Finset Nat
deriving DecidableEq

/-- The pipeline body of slidingRateLimiter.ts for one request at time now:
zadd key now (toString now), then zremrangebyscore key 0 (now - WINDOW_MS),
then zcard. The removal bound is computed in Int, as in JavaScript, so a
negative bound removes nothing. -/
def slidingStep (entries : Finset Nat) (now : Nat) : StepResult :=
  ⟨((insert now entries).filter fun t : Nat => (now : Int) - (WINDOW_MS : Int) < (t : Int)).card,
   (insert now entries).filter fun t : Nat => (now : Int) - (WINDOW_MS : Int) < (t : Int)⟩

/-- slidingRateLimiter: when the store is reachable, run the pipeline and
reject iff requestCount exceeds MAX_REQUESTS; when the store call throws
(storeUp = false), the catch branch fails open and calls next() with the
store unchanged. -/
def slidingRateLimiter (storeUp : Bool) (entries : Finset Nat) (now : Nat) :
    LimiterOutcome × Finset Nat :=
  if storeUp then
    let r := slidingStep entries now
    (if MAX_REQUESTS < r.requestCount then LimiterOutcome.reject else LimiterOutcome.proceed,
     r.entries)
  else
    (LimiterOutcome.proceed, entries)

/-- A sequence of requests for one key routed through slidingRateLimiter
with the store up, returning the per-request outcomes and the final store
contents. -/
def slidingRun (entries : Finset Nat) : List Nat → List LimiterOutcome × Finset Nat
  | [] => ([], entries)
  | now :: rest =>
    let r := slidingRateLimiter true entries now
    let tail := slidingRun r.2 rest
    (r.1 :: tail.1, tail.2)

/-- GET /health behind app.use(slidingRateLimiter): the middleware runs
first; on proceed the handler answers 200 with the liveness body, on
reject the client sees the limiter's 429. -/
def healthStatus (storeUp : Bool) (entries : Finset Nat) (now : Nat) : Nat × Finset Nat :=
  match slidingRateLimiter storeUp entries now with
  | (LimiterOutcome.proceed, e) => (200, e)
  | (LimiterOutcome.reject, e) => (429, e)

/-- A sequence of GET /health requests from one client with the store up. -/
def healthRun (entries : Finset Nat) : List Nat → List Nat × Finset Nat
  | [] => ([], entries)
  | now :: rest =>
    let r := healthStatus true entries now
    let tail := healthRun r.2 rest
    (r.1 :: tail.1, tail.2)

end Sliding

/-! Fixed-window limiter, from rateLimiter.ts. The per-key state is the
Redis counter for the key inside the current window. -/
namespace Fixed

def WINDOW_SECONDS : Nat := 60

def MAX_REQUESTS : Nat := 5

/-- rateLimiter: incr the key and reject iff the incremented count exceeds
MAX_REQUESTS; on a store error the catch branch fails open and calls
next() with the counter unchanged. -/
def rateLimiter (storeUp : Bool) (count : Nat) :
    Sliding.LimiterOutcome × Nat :=
  if storeUp then
    let currentCount := count + 1
    (if MAX_REQUESTS < currentCount then Sliding.LimiterOutcome.reject
     else Sliding.LimiterOutcome.proceed,
     currentCount)
  else
    (Sliding.LimiterOutcome.proceed, count)

end Fixed

/-! The retry caller callSlowServiceWithRetry of the gateway entry point:
one attempt, and on any rejection a 1000 ms backoff followed by one final
attempt whose outcome is returned as is. The downstream operation is
modelled as a function from the attempt index to its outcome. -/
namespace Retry

def BACKOFF_MS : Nat := 1000

/-- Classification of a downstream failure, as the specification's
transient versus permanent taxonomy names it. The source code never
inspects it. -/
inductive DownstreamError where
  | transientError
  | permanentError
deriving DecidableEq, Repr

/-- What one call of callSlowServiceWithRetry did: the value returned or
error thrown, how many times the operation was invoked, and how long the
backoff between attempts slept. -/
structure RetryOutcome (ε α : Type) where
  result : Except ε α
  invocations : Nat
  sleptMs : Nat

/-- callSlowServiceWithRetry: try the first attempt; on success return it
with no sleep; on any caught error sleep BACKOFF_MS and return the second
attempt's outcome. -/
def callSlowServiceWithRetry {ε α : Type} (op : Nat → Except ε α) : RetryOutcome ε α :=
  match op 0 with
  | Except.ok v => ⟨Except.ok v, 1, 0⟩
  | Except.error _ => ⟨op 1, 2, BACKOFF_MS⟩

end Retry

/-! The circuit breaker around GET /call-slow in the gateway entry point:
module-level variables failureCount, circuitOpen, lastFailureTime, with
FAILURE_THRESHOLD = 3 and OPEN_TIMEOUT_MS = 10000. -/
namespace Gateway

def FAILURE_THRESHOLD : Nat := 3

def OPEN_TIMEOUT_MS : Nat := 10000

/-- The module-level mutable breaker variables of the gateway. -/
structure GatewayState where
  failureCount : Nat
  circuitOpen : Bool
  lastFailureTime : Nat
deriving DecidableEq, Repr

def initialState : GatewayState := ⟨0, false, 0⟩

/-- Response of one GET /call-slow request: the 503 circuit-open
rejection, the 200 pass-through, or the 504 upstream failure. -/
inductive CallSlowResult where
  | circuitOpenRejected
  | upstreamSuccess
  | upstreamFailure
deriving DecidableEq, Repr

def statusOf : CallSlowResult → Nat
  | CallSlowResult.circuitOpenRejected => 503
  | CallSlowResult.upstreamSuccess => 200
  | CallSlowResult.upstreamFailure => 504

/-- One GET /call-slow request: its response, the breaker variables
afterwards, and whether the downstream operation was invoked. -/
structure CallSlowOutcome where
  result : CallSlowResult
  state : GatewayState
  invoked : Bool
deriving DecidableEq, Repr

/-- The try block of the /call-slow handler: invoke the downstream call;
on success reset failureCount to 0; on failure increment failureCount,
set lastFailureTime to now, and open the circuit when the tally reaches
FAILURE_THRESHOLD. -/
def attemptDownstream (s : GatewayState) (now : Nat) (downstreamOk : Bool) : CallSlowOutcome :=
  if downstreamOk then
    ⟨CallSlowResult.upstreamSuccess, { s with failureCount := 0 }, true⟩
  else
    ⟨CallSlowResult.upstreamFailure,
     ⟨s.failureCount + 1,
      s.circuitOpen || decide (FAILURE_THRESHOLD ≤ s.failureCount + 1),
      now⟩,
     true⟩

/-- The whole /call-slow handler: when the circuit is open and the
cooldown has not elapsed, answer 503 without invoking the operation;
when the cooldown has elapsed, clear circuitOpen and failureCount (the
half-open transition) and let the call through as the probe; otherwise
run the try block directly. -/
def callSlow (s : GatewayState) (now : Nat) (downstreamOk : Bool) : CallSlowOutcome :=
  if s.circuitOpen then
    if now - s.lastFailureTime < OPEN_TIMEOUT_MS then
      ⟨CallSlowResult.circuitOpenRejected, s, false⟩
    else
      attemptDownstream ⟨0, false, s.lastFailureTime⟩ now downstreamOk
  else
    attemptDownstream s now downstreamOk

end Gateway

end ApiGatewayResilience

namespace ApiGatewayResilience

namespace Sliding

/-- When every stored timestamp is at least a and the request time is
less than a + WINDOW_MS, the prune step removes nothing: the pipeline
returns the inserted set and its cardinality. -/
theorem slidingStep_no_prune (a : Nat) (S : Finset Nat) (now : Nat)
    (hS : ∀ x ∈ S, a ≤ x) (hnow : now < a + WINDOW_MS) :
    slidingStep S now = ⟨(insert now S).card, insert now S⟩ := by
  have hall : ∀ x ∈ insert now S, (now : Int) - (WINDOW_MS : Int) < (x : Int) := by
    intro x hx
    rcases Finset.mem_insert.mp hx with h | h
    · subst h
      have : 0 < WINDOW_MS := by decide
      omega
    · have := hS x h
      omega
  unfold slidingStep
  rw [Finset.filter_true_of_mem hall]

theorem slidingRun_length (S : Finset Nat) (ts : List Nat) :
    (slidingRun S ts).1.length = ts.length := by
  induction ts generalizing S with
  | nil => rfl
  | cons now rest ih => simp [slidingRun, ih]

/-- Outcome of the j-th request of an in-window run: reject exactly when
the distinct timestamps seen so far, together with the starting set,
number more than MAX_REQUESTS. -/
theorem slidingRun_get (a : Nat) (S : Finset Nat) (ts : List Nat)
    (hS : ∀ x ∈ S, a ≤ x) (hts : ∀ t ∈ ts, a ≤ t ∧ t < a + WINDOW_MS)
    (j : Nat) (hj : j < ts.length) :
    (slidingRun S ts).1[j]? =
      some (if MAX_REQUESTS < (S ∪ (ts.take (j + 1)).toFinset).card then
              LimiterOutcome.reject
            else LimiterOutcome.proceed) := by
  induction ts generalizing S j with
  | nil => simp at hj
  | cons now rest ih =>
    have hnow := hts now (by simp)
    have hstep := slidingStep_no_prune a S now hS hnow.2
    have hS' : ∀ x ∈ insert now S, a ≤ x := by
      intro x hx
      rcases Finset.mem_insert.mp hx with h | h
      · subst h; exact hnow.1
      · exact hS x h
    have hts' : ∀ t ∈ rest, a ≤ t ∧ t < a + WINDOW_MS := by
      intro t ht; exact hts t (by simp [ht])
    cases j with
    | zero =>
      simp [slidingRun, slidingRateLimiter, hstep, Finset.union_comm, Finset.insert_eq]
    | succ j =>
      have hj' : j < rest.length := by simpa using hj
      have hrec := ih (insert now S) hS' hts' j hj'
      have hset : (insert now S) ∪ (rest.take (j + 1)).toFinset
          = S ∪ (((now :: rest).take (j + 1 + 1)).toFinset) := by
        simp [List.take_succ_cons, List.toFinset_cons, Finset.insert_union, Finset.union_insert]
      simp only [slidingRun, slidingRateLimiter, hstep, if_true]
      rw [List.getElem?_cons_succ]
      rw [hrec, hset]

end Sliding

end ApiGatewayResilience

namespace ApiGatewayResilience

namespace Sliding

/-- For pairwise-distinct in-window request times starting from an empty
window, the j-th request sees count j + 1, so it is rejected exactly when
j + 1 exceeds MAX_REQUESTS. -/
theorem slidingRun_get_nodup (a : Nat) (ts : List Nat) (hnd : ts.Nodup)
    (hts : ∀ t ∈ ts, a ≤ t ∧ t < a + WINDOW_MS) (j : Nat) (hj : j < ts.length) :
    (slidingRun ∅ ts).1[j]? =
      some (if MAX_REQUESTS < j + 1 then LimiterOutcome.reject else LimiterOutcome.proceed) := by
  rw [slidingRun_get a ∅ ts (by simp) hts j hj]
  have hnd' : (ts.take (j + 1)).Nodup := List.Nodup.sublist (List.take_sublist _ _) hnd
  have hcard : ((ts.take (j + 1)).toFinset).card = j + 1 := by
    rw [List.toFinset_card_of_nodup hnd', List.length_take]
    omega
  simp [Finset.empty_union, hcard]

end Sliding

end ApiGatewayResilience

namespace ApiGatewayResilience

/-- C5: from Closed with tally 0, exactly three consecutive failed calls
open the breaker (two do not); the next call before openTimeout has
elapsed since the opening failure is answered 503 circuit-open without
invoking the operation and leaves the state unchanged; once
now - lastFailureTime reaches OPEN_TIMEOUT_MS the next call is let
through as a probe, whatever its outcome. -/
theorem C5_breaker_opens_after_threshold
    (l0 t1 t2 t3 t4 t5 : Nat) (b : Bool)
    (h4 : t4 - t3 < Gateway.OPEN_TIMEOUT_MS) (h5 : Gateway.OPEN_TIMEOUT_MS ≤ t5 - t3) :
    (Gateway.callSlow ⟨0, false, l0⟩ t1 false).state = ⟨1, false, t1⟩ ∧
    (Gateway.callSlow ⟨1, false, t1⟩ t2 false).state = ⟨2, false, t2⟩ ∧
    (Gateway.callSlow ⟨2, false, t2⟩ t3 false).state = ⟨3, true, t3⟩ ∧
    Gateway.callSlow ⟨3, true, t3⟩ t4 b =
      ⟨Gateway.CallSlowResult.circuitOpenRejected, ⟨3, true, t3⟩, false⟩ ∧
    Gateway.statusOf (Gateway.callSlow ⟨3, true, t3⟩ t4 b).result = 503 ∧
    (Gateway.callSlow ⟨3, true, t3⟩ t5 b).invoked = true := by
  have h5' : ¬ (t5 - t3 < Gateway.OPEN_TIMEOUT_MS) := Nat.not_lt.mpr h5
  refine ⟨?_, ?_, ?_, ?_, ?_, ?_⟩
  · simp [Gateway.callSlow, Gateway.attemptDownstream, Gateway.FAILURE_THRESHOLD]
  · simp [Gateway.callSlow, Gateway.attemptDownstream, Gateway.FAILURE_THRESHOLD]
  · simp [Gateway.callSlow, Gateway.attemptDownstream, Gateway.FAILURE_THRESHOLD]
  · simp [Gateway.callSlow, h4]
  · simp [Gateway.callSlow, h4, Gateway.statusOf]
  · cases b <;> simp [Gateway.callSlow, Gateway.attemptDownstream, h5']

theorem C5_witness :
    (Gateway.callSlow ⟨3, true, 3⟩ 10003 true).invoked = true :=
  (C5_breaker_opens_after_threshold 0 1 2 3 4 10003 true (by decide) (by decide)).2.2.2.2.2

/-- C1 divergence witness: the breaker is opened by failures at times
1, 2, 3; the probe at time 10003 fails, yet the resulting state has
circuitOpen = false with failureCount 1 (only lastFailureTime is reset),
and the immediately following call at time 10004 invokes the downstream
operation and answers 504, not the claimed 503 circuit-open rejection. -/
theorem C1_probe_failure_leaves_circuit_closed :
    (Gateway.callSlow (Gateway.callSlow (Gateway.callSlow
        Gateway.initialState 1 false).state 2 false).state 3 false).state
      = ⟨3, true, 3⟩ ∧
    (Gateway.callSlow ⟨3, true, 3⟩ 10003 false).invoked = true ∧
    (Gateway.callSlow ⟨3, true, 3⟩ 10003 false).state = ⟨1, false, 10003⟩ ∧
    (Gateway.callSlow ⟨1, false, 10003⟩ 10004 false).invoked = true ∧
    (Gateway.callSlow ⟨1, false, 10003⟩ 10004 false).result =
      Gateway.CallSlowResult.upstreamFailure ∧
    Gateway.statusOf (Gateway.callSlow ⟨1, false, 10003⟩ 10004 false).result = 504 := by
  decide

/-- C3 divergence witness: two requests for the same key in the same
millisecond (now = 1000) on an empty window. The stored member is the
timestamp string alone, so the second zadd coincides with the first:
afterwards the set holds a single entry and the second request is told
count 1, not 2. -/
theorem C3_same_millisecond_requests_collide :
    (Sliding.slidingStep (Sliding.slidingStep ∅ 1000).entries 1000).requestCount = 1 ∧
    (Sliding.slidingStep (Sliding.slidingStep ∅ 1000).entries 1000).entries = {1000} := by
  decide

end ApiGatewayResilience

namespace ApiGatewayResilience

/-- C2 counterexample: a client that has already used up its window gets
429 from GET /health. Six /health requests at times 0..5 from a fresh
window: the first five answer 200, the sixth answers 429, because the
sliding limiter is installed with app.use ahead of every route. -/
theorem C2_health_returns_429_when_over_limit :
    (Sliding.healthRun ∅ [0, 1, 2, 3, 4, 5]).1 = [200, 200, 200, 200, 200, 429] := by
  decide

/-- C2 amended: GET /health always runs behind the globally installed
sliding limiter. When the store call fails the limiter fails open and
/health answers 200 with the store untouched; when the store is up,
/health answers 200 exactly when the recorded count is within
MAX_REQUESTS and 429 exactly when it is above it. -/
theorem C2_health_through_limiter (e : Finset Nat) (now : Nat) :
    Sliding.healthStatus false e now = (200, e) ∧
    ((Sliding.healthStatus true e now).1 = 200 ↔
      (Sliding.slidingStep e now).requestCount ≤ Sliding.MAX_REQUESTS) ∧
    ((Sliding.healthStatus true e now).1 = 429 ↔
      Sliding.MAX_REQUESTS < (Sliding.slidingStep e now).requestCount) := by
  refine ⟨rfl, ?_, ?_⟩ <;>
    by_cases h : Sliding.MAX_REQUESTS < (Sliding.slidingStep e now).requestCount <;>
      simp [Sliding.healthStatus, Sliding.slidingRateLimiter, h] <;> omega

/-- C7: when the store call throws, both limiters fail open: the sliding
limiter and the fixed-window limiter call next() with their state
untouched and never answer 429, and an otherwise-valid /health request
still gets its 200 liveness response. -/
theorem C7_store_failure_fails_open (e : Finset Nat) (now c : Nat) :
    Sliding.slidingRateLimiter false e now = (Sliding.LimiterOutcome.proceed, e) ∧
    Fixed.rateLimiter false c = (Sliding.LimiterOutcome.proceed, c) ∧
    (Sliding.healthStatus false e now).1 = 200 :=
  ⟨rfl, rfl, rfl⟩

end ApiGatewayResilience

namespace ApiGatewayResilience

/-- C4 counterexample: an operation whose failure is permanent is still
retried. With both attempts failing permanently, callSlowServiceWithRetry
invokes the operation twice and sleeps the 1000 ms backoff, instead of
the claimed single invocation with no backoff. -/
theorem C4_permanent_error_is_retried :
    (Retry.callSlowServiceWithRetry fun _ =>
        (Except.error Retry.DownstreamError.permanentError :
          Except Retry.DownstreamError Nat)).invocations = 2 ∧
    (Retry.callSlowServiceWithRetry fun _ =>
        (Except.error Retry.DownstreamError.permanentError :
          Except Retry.DownstreamError Nat)).sleptMs = Retry.BACKOFF_MS :=
  ⟨rfl, rfl⟩

/-- C4 amended: the caller's catch clause never inspects the error, so
every failed first attempt is retried exactly once after the 1000 ms
backoff, whatever its transient or permanent classification: the call
returns the second attempt's outcome with two invocations. -/
theorem C4_every_failure_retried_once {α : Type}
    (op : Nat → Except Retry.DownstreamError α) (e : Retry.DownstreamError)
    (h : op 0 = Except.error e) :
    Retry.callSlowServiceWithRetry op = ⟨op 1, 2, Retry.BACKOFF_MS⟩ := by
  simp [Retry.callSlowServiceWithRetry, h]

theorem C4_witness :
    Retry.callSlowServiceWithRetry (fun _ =>
        (Except.error Retry.DownstreamError.permanentError :
          Except Retry.DownstreamError Nat)) =
      ⟨Except.error Retry.DownstreamError.permanentError, 2, Retry.BACKOFF_MS⟩ :=
  C4_every_failure_retried_once _ Retry.DownstreamError.permanentError rfl

/-- C8: callSlowServiceWithRetry invokes the operation at most twice for
every operation; a first-attempt success is returned after one
invocation; when both attempts fail it returns the second failure after
exactly two invocations; when the first attempt fails and the second
succeeds it returns that success after exactly two invocations. -/
theorem C8_at_most_two_attempts {ε α : Type} (op : Nat → Except ε α) :
    (Retry.callSlowServiceWithRetry op).invocations ≤ 2 ∧
    (∀ v, op 0 = Except.ok v →
      Retry.callSlowServiceWithRetry op = ⟨Except.ok v, 1, 0⟩) ∧
    (∀ e0 e1, op 0 = Except.error e0 → op 1 = Except.error e1 →
      Retry.callSlowServiceWithRetry op = ⟨Except.error e1, 2, Retry.BACKOFF_MS⟩) ∧
    (∀ e0 v, op 0 = Except.error e0 → op 1 = Except.ok v →
      Retry.callSlowServiceWithRetry op = ⟨Except.ok v, 2, Retry.BACKOFF_MS⟩) := by
  refine ⟨?_, ?_, ?_, ?_⟩
  · cases h : op 0 <;> simp [Retry.callSlowServiceWithRetry, h]
  · intro v h; simp [Retry.callSlowServiceWithRetry, h]
  · intro e0 e1 h0 h1; simp [Retry.callSlowServiceWithRetry, h0, h1]
  · intro e0 v h0 h1; simp [Retry.callSlowServiceWithRetry, h0, h1]

theorem C8_witness :
    Retry.callSlowServiceWithRetry
        (fun i => if i = 0 then (Except.error 0 : Except Nat Nat) else Except.ok 7) =
      ⟨Except.ok 7, 2, Retry.BACKOFF_MS⟩ :=
  (C8_at_most_two_attempts _).2.2.2 0 7 rfl rfl

end ApiGatewayResilience

namespace ApiGatewayResilience

/-- C6 counterexample: six requests in the same millisecond (limit + 1
requests inside one window) yield no rejection at all under the sliding
limiter, because the timestamp-only member makes them collapse into a
single stored entry. -/
theorem C6_same_instant_burst_not_rejected :
    (Sliding.slidingRun ∅ [1000, 1000, 1000, 1000, 1000, 1000]).1 =
      [Sliding.LimiterOutcome.proceed, Sliding.LimiterOutcome.proceed,
       Sliding.LimiterOutcome.proceed, Sliding.LimiterOutcome.proceed,
       Sliding.LimiterOutcome.proceed, Sliding.LimiterOutcome.proceed] := by
  decide

/-- C6 amended: both limiters admit exactly when the count returned by
the store is at most the limit, the tie-break being identical (a request
bringing the count to exactly the limit is admitted); and for limit + 1
requests with pairwise-distinct timestamps inside one window, the first
five are admitted and only the sixth is rejected. -/
theorem C6_tie_break_and_single_rejection
    (t0 t1 t2 t3 t4 t5 : Nat)
    (h01 : t0 < t1) (h12 : t1 < t2) (h23 : t2 < t3) (h34 : t3 < t4) (h45 : t4 < t5)
    (hW : t5 < t0 + Sliding.WINDOW_MS) :
    ((∀ (e : Finset Nat) (now : Nat),
        (Sliding.slidingRateLimiter true e now).1 = Sliding.LimiterOutcome.proceed ↔
          (Sliding.slidingStep e now).requestCount ≤ Sliding.MAX_REQUESTS) ∧
     (∀ c : Nat,
        (Fixed.rateLimiter true c).1 = Sliding.LimiterOutcome.proceed ↔
          c + 1 ≤ Fixed.MAX_REQUESTS)) ∧
    ((Sliding.slidingRun ∅ [t0, t1, t2, t3, t4, t5]).1[0]? =
        some Sliding.LimiterOutcome.proceed ∧
     (Sliding.slidingRun ∅ [t0, t1, t2, t3, t4, t5]).1[1]? =
        some Sliding.LimiterOutcome.proceed ∧
     (Sliding.slidingRun ∅ [t0, t1, t2, t3, t4, t5]).1[2]? =
        some Sliding.LimiterOutcome.proceed ∧
     (Sliding.slidingRun ∅ [t0, t1, t2, t3, t4, t5]).1[3]? =
        some Sliding.LimiterOutcome.proceed ∧
     (Sliding.slidingRun ∅ [t0, t1, t2, t3, t4, t5]).1[4]? =
        some Sliding.LimiterOutcome.proceed ∧
     (Sliding.slidingRun ∅ [t0, t1, t2, t3, t4, t5]).1[5]? =
        some Sliding.LimiterOutcome.reject) := by
  have hnd : ([t0, t1, t2, t3, t4, t5] : List Nat).Nodup := by
    simp [List.nodup_cons]
    omega
  have hts : ∀ t ∈ ([t0, t1, t2, t3, t4, t5] : List Nat),
      t0 ≤ t ∧ t < t0 + Sliding.WINDOW_MS := by
    intro t ht
    simp at ht
    rcases ht with rfl | rfl | rfl | rfl | rfl | rfl <;> omega
  constructor
  · constructor
    · intro e now
      by_cases h : Sliding.MAX_REQUESTS < (Sliding.slidingStep e now).requestCount <;>
        simp [Sliding.slidingRateLimiter, h] <;> omega
    · intro c
      by_cases h : Fixed.MAX_REQUESTS < c + 1 <;>
        simp [Fixed.rateLimiter, h] <;> omega
  · refine ⟨?_, ?_, ?_, ?_, ?_, ?_⟩ <;>
      rw [Sliding.slidingRun_get_nodup t0 _ hnd hts _ (by simp)] <;> rfl

theorem C6_witness :
    (Sliding.slidingRun ∅ [0, 1, 2, 3, 4, 5]).1[5]? =
      some Sliding.LimiterOutcome.reject :=
  (C6_tie_break_and_single_rejection 0 1 2 3 4 5 (by decide) (by decide) (by decide)
    (by decide) (by decide) (by decide)).2.2.2.2.2.2

end ApiGatewayResilience

namespace ApiGatewayResilience

/-- C10: the sliding limiter records the request before deciding and a
rejection does not remove it. The request's own timestamp is a member of
the pipeline's resulting set, the count returned is the cardinality of
that same set, and the stored state after the middleware equals the
pipeline's set whether the request was admitted or rejected; hence, for
any run of requests inside one window, every request after a rejected
one is rejected as well: retrying cannot drain the window. -/
theorem C10_rejected_requests_consume_capacity :
    (∀ (e : Finset Nat) (now : Nat),
        now ∈ (Sliding.slidingStep e now).entries ∧
        (Sliding.slidingStep e now).requestCount =
          (Sliding.slidingStep e now).entries.card ∧
        (Sliding.slidingRateLimiter true e now).2 =
          (Sliding.slidingStep e now).entries) ∧
    (∀ (a : Nat) (ts : List Nat),
        (∀ t ∈ ts, a ≤ t ∧ t < a + Sliding.WINDOW_MS) →
        ∀ i j : Nat, i ≤ j → j < ts.length →
        (Sliding.slidingRun ∅ ts).1[i]? = some Sliding.LimiterOutcome.reject →
        (Sliding.slidingRun ∅ ts).1[j]? = some Sliding.LimiterOutcome.reject) := by
  constructor
  · intro e now
    refine ⟨?_, rfl, rfl⟩
    simp [Sliding.slidingStep, Finset.mem_filter, Sliding.WINDOW_MS]
  · intro a ts hts i j hij hj hi
    have hi' : i < ts.length := Nat.lt_of_le_of_lt hij hj
    rw [Sliding.slidingRun_get a ∅ ts (by simp) hts i hi'] at hi
    rw [Sliding.slidingRun_get a ∅ ts (by simp) hts j hj]
    have hmax : Sliding.MAX_REQUESTS < ((ts.take (i + 1)).toFinset).card := by
      by_contra h
      simp [Finset.empty_union, h] at hi
    have hsub : (ts.take (i + 1)).toFinset ⊆ (ts.take (j + 1)).toFinset := by
      intro x hx
      rw [List.mem_toFinset] at hx
      rw [List.mem_toFinset]
      have heq : ts.take (i + 1) = (ts.take (j + 1)).take (i + 1) := by
        rw [List.take_take, Nat.min_eq_left (by omega)]
      rw [heq] at hx
      exact List.take_subset _ _ hx
    have hcard := Finset.card_le_card hsub
    have hgoal : Sliding.MAX_REQUESTS < ((ts.take (j + 1)).toFinset).card := by omega
    simp [Finset.empty_union, hgoal]

theorem C10_witness :
    (Sliding.slidingRun ∅ [0, 1, 2, 3, 4, 5, 6]).1[6]? =
      some Sliding.LimiterOutcome.reject :=
  C10_rejected_requests_consume_capacity.2 0 [0, 1, 2, 3, 4, 5, 6] (by decide) 5 6
    (by decide) (by decide) (by decide)

end ApiGatewayResilience
